import Mathlib

/-
Verification of the firebase-auth-gateway JavaScript SDK against its
natural-language specification.

The definitions below are a shallow embedding of the TypeScript source:
  - javascript-sdk/src/events.ts       (class EventEmitter)
  - javascript-sdk/src/api-client.ts   (class ApiClient, request interceptor)
  - javascript-sdk/src/vanilla-auth.ts (class VanillaAuthClient)
  - javascript-sdk/src/auth-context.tsx (AuthProvider component)

JavaScript callbacks are represented by opaque identifiers (Nat), with
function identity standing for reference equality.  Backend HTTP calls are
represented by an oracle record whose fields give the response of each
endpoint; network and state effects are threaded through explicit world
records.  String truthiness of JavaScript (null and the empty string are
falsy) is modelled by the strParam function.
-/

set_option autoImplicit false

namespace AuthGateway

/-- UserData as returned by the backend (javascript-sdk/src/types.ts). -/
structure UserData where
  uid : String
  email : String
  display_name : Option String := none
  photo_url : Option String := none
deriving DecidableEq, Repr

/-- Association-list lookup, modelling reading a key of a JavaScript object
keyed by strings (undefined is none). -/
def assocLookup {α : Type} : List (String × α) → String → Option α
  | [], _ => none
  | (k, v) :: rest, key => if k = key then some v else assocLookup rest key

/-- Association-list update-or-insert, modelling assignment to a key of a
JavaScript object. -/
def assocSet {α : Type} : List (String × α) → String → α → List (String × α)
  | [], key, v => [(key, v)]
  | (k, w) :: rest, key, v =>
      if k = key then (key, v) :: rest else (k, w) :: assocSet rest key v

theorem assocLookup_set_self {α : Type} (l : List (String × α)) (k : String) (v : α) :
    assocLookup (assocSet l k v) k = some v := by
  induction l with
  | nil => simp [assocSet, assocLookup]
  | cons p rest ih =>
    by_cases h : p.1 = k
    · simp [assocSet, h, assocLookup]
    · simp [assocSet, h, assocLookup, ih]

theorem assocLookup_set_ne {α : Type} (l : List (String × α)) (k k2 : String) (v : α)
    (h : k2 ≠ k) : assocLookup (assocSet l k v) k2 = assocLookup l k2 := by
  induction l with
  | nil => simp [assocSet, assocLookup, Ne.symm h]
  | cons p rest ih =>
    by_cases hp : p.1 = k
    · simp [assocSet, hp, assocLookup, Ne.symm h]
    · simp [assocSet, hp, assocLookup, ih]

theorem assocSet_set {α : Type} (l : List (String × α)) (k : String) (v v2 : α) :
    assocSet (assocSet l k v) k v2 = assocSet l k v2 := by
  induction l with
  | nil => simp [assocSet]
  | cons p rest ih =>
    by_cases hp : p.1 = k
    · simp [assocSet, hp]
    · simp [assocSet, hp, ih]

/-- Argument carried by an Event Channel publication: the payloads emitted by
the vanilla client are a user (authStateChanged), a loading flag
(loadingStateChanged) or an error string (error). -/
inductive EmitArg where
  | userArg (u : Option UserData)
  | loadingArg (b : Bool)
  | errorArg (e : String)
deriving DecidableEq, Repr

/-- State of an EventEmitter: the JavaScript object mapping event names to
arrays of registered callbacks (events.ts, field events), callbacks being
identifiers compared by reference. -/
def Emitter : Type := List (String × List Nat)

instance : DecidableEq Emitter :=
  inferInstanceAs (DecidableEq (List (String × List Nat)))

instance : Repr Emitter :=
  inferInstanceAs (Repr (List (String × List Nat)))

namespace EventEmitter

/-- Handlers currently registered for an event, in registration order; a
missing key behaves as the empty registration (events.ts, emit guards with
a truthiness check before iterating). -/
def getHandlers (em : Emitter) (event : String) : List Nat :=
  (assocLookup em event).getD []

/-- EventEmitter.on, named subscribe by the specification: create the array
if absent, push the callback (events.ts lines 13-17). -/
def subscribe (em : Emitter) (event : String) (callback : Nat) : Emitter :=
  assocSet em event (getHandlers em event ++ [callback])

/-- Unsubscribe closure returned by EventEmitter.on (events.ts lines 20-22):
replaces the array for the event by the array with every entry
reference-equal to the callback filtered out.  When the key is absent
(only reachable after clear) the source would fault; no claim reaches
that case and the emitter is returned unchanged. -/
def unsubscribe (em : Emitter) (event : String) (callback : Nat) : Emitter :=
  match assocLookup em event with
  | some hs => assocSet em event (hs.filter (fun cb => cb ≠ callback))
  | none => em

/-- EventEmitter.emit (events.ts lines 30-36): every registered handler of
the event is invoked, in order, with the published arguments.  The result
lists the invocations (callback, argument). -/
def emit (em : Emitter) (event : String) (args : EmitArg) : List (Nat × EmitArg) :=
  (getHandlers em event).map (fun cb => (cb, args))

/-- Execution of the forEach loop inside emit when handlers may throw:
JavaScript forEach has no try/catch around the callback, so a throwing
handler aborts the iteration and the exception escapes emit.  Returns the
handlers actually invoked and whether an exception escaped. -/
def runCallbacks (throws : Nat → Bool) : List Nat → List Nat × Bool
  | [] => ([], false)
  | cb :: rest =>
      if throws cb then ([cb], true)
      else
        let r := runCallbacks throws rest
        (cb :: r.1, r.2)

/-- Emit in the presence of throwing handlers (see runCallbacks). -/
def emitRun (em : Emitter) (event : String) (throws : Nat → Bool) : List Nat × Bool :=
  runCallbacks throws (getHandlers em event)

/-- EventEmitter.clear (events.ts lines 42-48): with an event, delete that
key; with no event, reset the whole registry. -/
def clear (em : Emitter) (event : Option String) : Emitter :=
  match event with
  | some ev => em.filter (fun p => p.1 ≠ ev)
  | none => []

theorem getHandlers_subscribe_self (em : Emitter) (event : String) (cb : Nat) :
    getHandlers (subscribe em event cb) event = getHandlers em event ++ [cb] := by
  simp [subscribe, getHandlers, assocLookup_set_self]

theorem getHandlers_subscribe_ne (em : Emitter) (e1 e2 : String) (cb : Nat) (h : e2 ≠ e1) :
    getHandlers (subscribe em e1 cb) e2 = getHandlers em e2 := by
  simp [subscribe, getHandlers, assocLookup_set_ne _ _ _ _ h]

theorem mem_emit_subscribe (em : Emitter) (event : String) (cb : Nat) (a : EmitArg) :
    (cb, a) ∈ emit (subscribe em event cb) event a := by
  simp [emit, getHandlers_subscribe_self]

theorem emit_clear_none (em : Emitter) (event : String) (a : EmitArg) :
    emit (clear em none) event a = [] := by
  simp [emit, clear, getHandlers, assocLookup]

theorem not_mem_getHandlers_unsubscribe (em : Emitter) (event : String) (cb : Nat) :
    cb ∉ getHandlers (unsubscribe em event cb) event := by
  unfold unsubscribe
  cases hl : assocLookup em event with
  | none => simp [getHandlers, hl]
  | some hs => simp [getHandlers, assocLookup_set_self, List.mem_filter]

theorem getHandlers_unsubscribe_ne (em : Emitter) (e1 e2 : String) (cb : Nat)
    (h : e2 ≠ e1) : getHandlers (unsubscribe em e1 cb) e2 = getHandlers em e2 := by
  unfold unsubscribe
  cases hl : assocLookup em e1 with
  | none => rfl
  | some hs => simp [getHandlers, assocLookup_set_ne _ _ _ _ h]

theorem filter_idem {α : Type} (p : α → Bool) (l : List α) :
    (l.filter p).filter p = l.filter p := by
  induction l with
  | nil => rfl
  | cons x rest ih =>
    by_cases hx : p x
    · simp [List.filter, hx, ih]
    · simp [List.filter, hx, ih]

theorem unsubscribe_unsubscribe (em : Emitter) (event : String) (cb : Nat) :
    unsubscribe (unsubscribe em event cb) event cb = unsubscribe em event cb := by
  unfold unsubscribe
  cases hl : assocLookup em event with
  | none => simp [hl]
  | some hs => simp [assocLookup_set_self, assocSet_set, filter_idem]

theorem mem_getHandlers_unsubscribe_iff (em : Emitter) (event : String) (cb g : Nat)
    (h : g ≠ cb) :
    g ∈ getHandlers (unsubscribe em event cb) event ↔ g ∈ getHandlers em event := by
  unfold unsubscribe
  cases hl : assocLookup em event with
  | none => simp
  | some hs => simp [getHandlers, assocLookup_set_self, hl, List.mem_filter, h]

end EventEmitter

/-- JavaScript truthiness of a nullable string as used in the token, code
and state guards of the SDK: null and the empty string count as absent. -/
def strParam : Option String → Option String
  | none => none
  | some s => if s = "" then none else some s

/-- Outgoing HTTP request configuration: only the headers matter to the
interceptor (api-client.ts). -/
structure RequestConfig where
  headers : List (String × String)
deriving DecidableEq, Repr

/-- Request interceptor installed by the ApiClient constructor
(api-client.ts lines 22-32): read the token store synchronously; when the
read token is truthy (non-null and non-empty, the if guard of line 26),
set the Authorization header to the Bearer form; otherwise pass the
configuration through unchanged. -/
def interceptRequest (storedToken : Option String) (config : RequestConfig) :
    RequestConfig :=
  match strParam storedToken with
  | some token =>
      { config with headers := assocSet config.headers "Authorization" ("Bearer " ++ token) }
  | none => config

/-- Current browser URL, reduced to the parts the SDK inspects: the origin,
the pathname, and the three query parameters read during initialization.
A parameter value of none means the parameter is absent; URLSearchParams
returns the raw value otherwise. -/
structure Url where
  origin : String
  path : String
  tokenParam : Option String
  codeParam : Option String
  stateParam : Option String
deriving DecidableEq, Repr

/-- URL produced by window.history.replaceState with the given target path:
the origin is kept and the query string is dropped. -/
def replaceStateUrl (u : Url) (p : String) : Url :=
  { origin := u.origin, path := p, tokenParam := none, codeParam := none,
    stateParam := none }

/-- One backend HTTP call issued through the ApiClient, recorded with the
arguments the SDK passed. -/
inductive ApiCall where
  | verifyCall
  | callbackCall (code : String) (state : Option String)
  | logoutCall
  | loginCall (redirectUri : String)
deriving DecidableEq, Repr

/-- Backend oracle: the response each endpoint would return during the run
under consideration (ok carries the parsed response body, error carries a
message for the rejected promise). -/
structure Backend where
  verifyResp : Except String UserData
  callbackResp : Except String (String × UserData)
  logoutResp : Except String Unit
  loginResp : Except String String

/-- World of a VanillaAuthClient run: the instance fields of the class
(vanilla-auth.ts lines 16-20), the browser environment it touches
(localStorage token key, current URL, pending navigation), and two traces:
the backend calls issued and the Event Channel callback invocations
performed (callback identifier with argument).  storeWrites records every
localStorage write to the token key (some t for setItem, none for
removeItem). -/
structure VWorld where
  apiClientInit : Bool
  user : Option UserData
  isLoading : Bool
  error : Option String
  events : Emitter
  storedToken : Option String
  url : Url
  navigatedTo : Option String
  calls : List ApiCall
  storeWrites : List (Option String)
  invocations : List (Nat × EmitArg)
deriving Repr

/-- World of a VanillaAuthClient directly after construction, before
initialize runs (field initializers of vanilla-auth.ts lines 16-20),
in a browser whose token store and URL are given. -/
def startVWorld (stored : Option String) (u : Url) : VWorld :=
  { apiClientInit := false, user := none, isLoading := true, error := none,
    events := [], storedToken := stored, url := u, navigatedTo := none,
    calls := [], storeWrites := [], invocations := [] }

namespace VanillaAuthClient

/-- localStorage.setItem(StorageKeys.TOKEN, t). -/
def setItem (w : VWorld) (t : String) : VWorld :=
  { w with storedToken := some t, storeWrites := w.storeWrites ++ [some t] }

/-- localStorage.removeItem(StorageKeys.TOKEN). -/
def removeItem (w : VWorld) : VWorld :=
  { w with storedToken := none, storeWrites := w.storeWrites ++ [none] }

/-- VanillaAuthClient.setUser (vanilla-auth.ts lines 159-162): assign the
field, then emit authStateChanged with the user. -/
def setUser (w : VWorld) (u : Option UserData) : VWorld :=
  let w2 := { w with user := u }
  { w2 with invocations :=
      w2.invocations ++ EventEmitter.emit w2.events "authStateChanged" (EmitArg.userArg u) }

/-- VanillaAuthClient.setLoading (vanilla-auth.ts lines 168-171): assign the
field, then emit loadingStateChanged with the flag. -/
def setLoading (w : VWorld) (b : Bool) : VWorld :=
  let w2 := { w with isLoading := b }
  { w2 with invocations :=
      w2.invocations ++ EventEmitter.emit w2.events "loadingStateChanged" (EmitArg.loadingArg b) }

/-- VanillaAuthClient.setError (vanilla-auth.ts lines 177-182): assign the
field, then emit error only when the new value is truthy (a non-null,
non-empty string). -/
def setError (w : VWorld) (e : Option String) : VWorld :=
  let w2 := { w with error := e }
  match e with
  | some msg =>
      if msg = "" then w2
      else
        { w2 with invocations :=
            w2.invocations ++ EventEmitter.emit w2.events "error" (EmitArg.errorArg msg) }
  | none => w2

/-- VanillaAuthClient.handleDirectToken (vanilla-auth.ts lines 66-92):
guard on the API client, bracket with isLoading, store the token, verify
it via getCurrentUser, on success set the user and strip the query string
from the URL, on failure set an error and remove the token; the finally
block always resets isLoading. -/
def handleDirectToken (b : Backend) (w : VWorld) (token : String) : VWorld :=
  if w.apiClientInit then
    let w := setError (setLoading w true) none
    let w := setItem w token
    let w := { w with calls := w.calls ++ [ApiCall.verifyCall] }
    match b.verifyResp with
    | Except.ok u =>
        let w := setUser w (some u)
        let w := { w with url := replaceStateUrl w.url w.url.path }
        setLoading w false
    | Except.error _ =>
        let w := setError w (some "Authentication failed. Please try again.")
        let w := removeItem w
        setLoading w false
  else setLoading w false

/-- VanillaAuthClient.handleCallback (vanilla-auth.ts lines 99-125): guard,
isLoading bracket, exchange the code, on success store the returned token,
set the user and strip the query string from the URL, on failure set an
error and remove the token. -/
def handleCallback (b : Backend) (w : VWorld) (code : String) (state : Option String) :
    VWorld :=
  if w.apiClientInit then
    let w := setError (setLoading w true) none
    let w := { w with calls := w.calls ++ [ApiCall.callbackCall code state] }
    match b.callbackResp with
    | Except.ok (tok, u) =>
        let w := setItem w tok
        let w := setUser w (some u)
        let w := { w with url := replaceStateUrl w.url w.url.path }
        setLoading w false
    | Except.error _ =>
        let w := setError w (some "Authentication failed. Please try again.")
        let w := removeItem w
        setLoading w false
  else setLoading w false

/-- VanillaAuthClient.checkExistingAuth (vanilla-auth.ts lines 130-153):
guard, read the stored token (empty string is falsy), settle as anonymous
when absent, otherwise verify it; on failure remove the token then set an
error; the finally block resets isLoading. -/
def checkExistingAuth (b : Backend) (w : VWorld) : VWorld :=
  if w.apiClientInit then
    match strParam w.storedToken with
    | none => setLoading w false
    | some _ =>
        let w := { w with calls := w.calls ++ [ApiCall.verifyCall] }
        match b.verifyResp with
        | Except.ok u => setLoading (setUser w (some u)) false
        | Except.error _ =>
            let w := removeItem w
            let w := setError w (some "Authentication failed. Please log in again.")
            setLoading w false
  else setLoading w false

/-- VanillaAuthClient.initialize (vanilla-auth.ts lines 34-60): construct
the API client, then dispatch on the URL query parameters in priority
order token, code, stored token. -/
def init (b : Backend) (w : VWorld) : VWorld :=
  let w := { w with apiClientInit := true }
  match strParam w.url.tokenParam with
  | some token => handleDirectToken b w token
  | none =>
      match strParam w.url.codeParam with
      | some code => handleCallback b w code (strParam w.url.stateParam)
      | none => checkExistingAuth b w

/-- VanillaAuthClient.login (vanilla-auth.ts lines 245-266): guard, bracket,
request a login URL for origin plus pathname, navigate on success; on
failure set an error and reset isLoading (on success isLoading stays true
because navigation leaves the page). -/
def login (b : Backend) (w : VWorld) : VWorld :=
  if w.apiClientInit then
    let w := setError (setLoading w true) none
    let w := { w with calls := w.calls ++ [ApiCall.loginCall (w.url.origin ++ w.url.path)] }
    match b.loginResp with
    | Except.ok authUrl => { w with navigatedTo := some authUrl }
    | Except.error _ =>
        setLoading (setError w (some "Login failed. Please try again.")) false
  else setError w (some "Authentication not initialized")

/-- VanillaAuthClient.logout (vanilla-auth.ts lines 280-302): guard,
bracket, call the backend logout endpoint; only when that call succeeds
are the stored token removed and the user cleared, the catch block only
records an error; the finally block resets isLoading. -/
def logout (b : Backend) (w : VWorld) : VWorld :=
  if w.apiClientInit then
    let w := setError (setLoading w true) none
    let w := { w with calls := w.calls ++ [ApiCall.logoutCall] }
    match b.logoutResp with
    | Except.ok _ =>
        let w := removeItem w
        let w := setUser w none
        setLoading w false
    | Except.error _ =>
        setLoading (setError w (some "Logout failed. Please try again.")) false
  else setError w (some "Authentication not initialized")

/-- VanillaAuthClient.onAuthStateChanged (vanilla-auth.ts lines 189-194):
invoke the callback immediately with the current user, then register it on
the authStateChanged event. -/
def onAuthStateChanged (w : VWorld) (cb : Nat) : VWorld :=
  let w := { w with invocations := w.invocations ++ [(cb, EmitArg.userArg w.user)] }
  { w with events := EventEmitter.subscribe w.events "authStateChanged" cb }

/-- VanillaAuthClient.onError (vanilla-auth.ts lines 201-203): register the
callback on the error event; unlike the other two listeners there is no
immediate invocation with the current state. -/
def onError (w : VWorld) (cb : Nat) : VWorld :=
  { w with events := EventEmitter.subscribe w.events "error" cb }

/-- VanillaAuthClient.onLoadingStateChanged (vanilla-auth.ts lines 210-215):
invoke the callback immediately with the current loading flag, then
register it on the loadingStateChanged event. -/
def onLoadingStateChanged (w : VWorld) (cb : Nat) : VWorld :=
  let w := { w with invocations := w.invocations ++ [(cb, EmitArg.loadingArg w.isLoading)] }
  { w with events := EventEmitter.subscribe w.events "loadingStateChanged" cb }

/-- VanillaAuthClient.destroy (vanilla-auth.ts lines 307-309): clear every
Event Channel subscription. -/
def destroy (w : VWorld) : VWorld :=
  { w with events := EventEmitter.clear w.events none }

end VanillaAuthClient

/-- Configurable props of the React AuthProvider (types.ts lines 17-44),
with the defaults of auth-context.tsx lines 24-25. -/
structure AuthProviderProps where
  loginRedirectPath : String := "/"
  unauthorizedRedirectPath : String := "/login"
deriving DecidableEq, Repr

/-- World of a React AuthProvider run: the useState fields of the component
(auth-context.tsx lines 30-33), the browser environment, and the trace of
backend calls and localStorage writes to the token key. -/
structure RWorld where
  apiClientInit : Bool
  user : Option UserData
  isLoading : Bool
  error : Option String
  storedToken : Option String
  url : Url
  navigatedTo : Option String
  calls : List ApiCall
  storeWrites : List (Option String)
deriving Repr

/-- World of an AuthProvider directly after mount, before the
initialization effect runs (useState initial values of auth-context.tsx
lines 30-32), in a browser whose token store and URL are given. -/
def startRWorld (stored : Option String) (u : Url) : RWorld :=
  { apiClientInit := true, user := none, isLoading := true, error := none,
    storedToken := stored, url := u, navigatedTo := none, calls := [],
    storeWrites := [] }

namespace AuthProvider

/-- localStorage.setItem(StorageKeys.TOKEN, t). -/
def setItem (w : RWorld) (t : String) : RWorld :=
  { w with storedToken := some t, storeWrites := w.storeWrites ++ [some t] }

/-- localStorage.removeItem(StorageKeys.TOKEN). -/
def removeItem (w : RWorld) : RWorld :=
  { w with storedToken := none, storeWrites := w.storeWrites ++ [none] }

/-- Direct-token branch of the initialization effect (auth-context.tsx
lines 57-95): set isLoading, clear error, store the token, start the
verification request; the synchronous continuation then rewrites the URL
to loginRedirectPath before the response arrives.  When verification
succeeds the user is set; when it fails the error is set, the token
removed and the URL rewritten to unauthorizedRedirectPath; isLoading is
reset in the finally block either way. -/
def handleToken (cfg : AuthProviderProps) (b : Backend) (w : RWorld) (token : String) :
    RWorld :=
  let w := { w with isLoading := true, error := none }
  let w := setItem w token
  let w := { w with calls := w.calls ++ [ApiCall.verifyCall] }
  let w := { w with url := replaceStateUrl w.url cfg.loginRedirectPath }
  match b.verifyResp with
  | Except.ok u => { w with user := some u, isLoading := false }
  | Except.error _ =>
      let w := { w with error := some "Authentication failed. Please try again." }
      let w := removeItem w
      let w := { w with url := replaceStateUrl w.url cfg.unauthorizedRedirectPath }
      { w with isLoading := false }

/-- Code-exchange branch of the initialization effect, the local
handleCallback function (auth-context.tsx lines 98-124): bracket with
isLoading, exchange the code; on success store the returned token, set the
user and rewrite the URL to loginRedirectPath; on failure set the error,
remove the token and rewrite the URL to unauthorizedRedirectPath. -/
def handleCallback (cfg : AuthProviderProps) (b : Backend) (w : RWorld) (code : String)
    (state : Option String) : RWorld :=
  let w := { w with isLoading := true, error := none }
  let w := { w with calls := w.calls ++ [ApiCall.callbackCall code state] }
  match b.callbackResp with
  | Except.ok (tok, u) =>
      let w := setItem w tok
      let w := { w with user := some u }
      let w := { w with url := replaceStateUrl w.url cfg.loginRedirectPath }
      { w with isLoading := false }
  | Except.error _ =>
      let w := { w with error := some "Authentication failed. Please try again." }
      let w := removeItem w
      let w := { w with url := replaceStateUrl w.url cfg.unauthorizedRedirectPath }
      { w with isLoading := false }

/-- Stored-token branch of the initialization effect, the local checkAuth
function (auth-context.tsx lines 127-145): settle as anonymous when no
token is stored (empty string is falsy); otherwise verify the token, on
failure remove it and set an error; isLoading is reset in the finally
block. -/
def checkAuth (b : Backend) (w : RWorld) : RWorld :=
  match strParam w.storedToken with
  | none => { w with isLoading := false }
  | some _ =>
      let w := { w with calls := w.calls ++ [ApiCall.verifyCall] }
      match b.verifyResp with
      | Except.ok u => { w with user := some u, isLoading := false }
      | Except.error _ =>
          let w := removeItem w
          let w := { w with error := some "Authentication failed. Please log in again." }
          { w with isLoading := false }

/-- Initialization effect of the AuthProvider (auth-context.tsx lines
49-149): return early when the API client is not ready, otherwise dispatch
on the URL query parameters in priority order token, code, stored
token. -/
def init (cfg : AuthProviderProps) (b : Backend) (w : RWorld) : RWorld :=
  if w.apiClientInit then
    match strParam w.url.tokenParam with
    | some token => handleToken cfg b w token
    | none =>
        match strParam w.url.codeParam with
        | some code => handleCallback cfg b w code (strParam w.url.stateParam)
        | none => checkAuth b w
  else w

/-- AuthProvider login (auth-context.tsx lines 154-174): guard, bracket,
request a login URL for the page origin, navigate on success; on failure
set an error and reset isLoading. -/
def login (b : Backend) (w : RWorld) : RWorld :=
  if w.apiClientInit then
    let w := { w with isLoading := true, error := none }
    let w := { w with calls := w.calls ++ [ApiCall.loginCall w.url.origin] }
    match b.loginResp with
    | Except.ok authUrl => { w with navigatedTo := some authUrl }
    | Except.error _ =>
        { w with error := some "Login failed. Please try again.", isLoading := false }
  else { w with error := some "Authentication not initialized" }

/-- AuthProvider logout (auth-context.tsx lines 179-201): guard, bracket,
call the backend logout endpoint; only when that call succeeds are the
stored token removed and the user cleared, the catch block only records an
error; the finally block resets isLoading. -/
def logout (b : Backend) (w : RWorld) : RWorld :=
  if w.apiClientInit then
    let w := { w with isLoading := true, error := none }
    let w := { w with calls := w.calls ++ [ApiCall.logoutCall] }
    match b.logoutResp with
    | Except.ok _ =>
        let w := removeItem w
        let w := { w with user := none }
        { w with isLoading := false }
    | Except.error _ =>
        { w with error := some "Logout failed. Please try again.", isLoading := false }
  else { w with error := some "Authentication not initialized" }

end AuthProvider

/-- Concrete user fixture for witnesses and counterexamples. -/
def u0 : UserData := { uid := "u1", email := "a@b.com" }

/-- Concrete URL with no callback parameters. -/
def urlPlain : Url :=
  { origin := "https://app.example", path := "/home", tokenParam := none,
    codeParam := none, stateParam := none }

/-- Concrete URL carrying a direct token parameter. -/
def urlWithToken : Url := { urlPlain with tokenParam := some "T" }

/-- Concrete URL carrying code and state parameters. -/
def urlWithCode : Url := { urlPlain with codeParam := some "C", stateParam := some "S" }

/-- Backend fixture on which every endpoint succeeds. -/
def backendAllOk : Backend :=
  { verifyResp := Except.ok u0, callbackResp := Except.ok ("tok1", u0),
    logoutResp := Except.ok (), loginResp := Except.ok "https://accounts.example/auth" }

/-- Backend fixture on which every endpoint fails. -/
def backendAllFail : Backend :=
  { verifyResp := Except.error "HTTP 401", callbackResp := Except.error "HTTP 401",
    logoutResp := Except.error "HTTP 500", loginResp := Except.error "network" }

/-- Vanilla client world fixture: initialized, authenticated, token stored. -/
def wLoggedIn : VWorld :=
  { startVWorld (some "tok") urlPlain with
    apiClientInit := true, user := some u0, isLoading := false }

/-- React provider world fixture: initialized, authenticated, token stored. -/
def rLoggedIn : RWorld :=
  { startRWorld (some "tok") urlPlain with
    user := some u0, isLoading := false }

/-- Vanilla client world fixture holding a current error and no listeners. -/
def wWithError : VWorld :=
  { startVWorld none urlPlain with
    apiClientInit := true, error := some "boom", isLoading := false }

/-- Claim C4 (code evaluation at the failing input): with handlers 0 and 1
subscribed to a topic in that order and handler 0 throwing, emit invokes
only handler 0 and the exception escapes, so handler 1 is never invoked
even though it remains subscribed.  The claim requires every remaining
handler to still be invoked; the emit loop of events.ts has no try/catch
around the callbacks, so the code violates the claim. -/
theorem C4_emit_aborts_on_throw :
    EventEmitter.emitRun
      (EventEmitter.subscribe (EventEmitter.subscribe [] "authStateChanged" 0)
        "authStateChanged" 1)
      "authStateChanged" (fun cb => cb == 0) = ([0], true) := by
  rfl

/-- Claim C8: on the Event Channel, subscribe followed immediately by
publish invokes the handler with exactly the published arguments; clear
with no topic followed by publish invokes no handler for any topic; and
the unsubscribe of one handler leaves every other handler on the same
topic subscribed exactly as before. -/
theorem C8_event_channel_basics (em : Emitter) (t t2 : String) (cb g : Nat)
    (a a2 : EmitArg) (hgh : g ≠ cb) :
    (cb, a) ∈ EventEmitter.emit (EventEmitter.subscribe em t cb) t a ∧
    EventEmitter.emit (EventEmitter.clear em none) t2 a2 = [] ∧
    (g ∈ EventEmitter.getHandlers (EventEmitter.unsubscribe em t cb) t ↔
      g ∈ EventEmitter.getHandlers em t) :=
  ⟨EventEmitter.mem_emit_subscribe em t cb a,
   EventEmitter.emit_clear_none em t2 a2,
   EventEmitter.mem_getHandlers_unsubscribe_iff em t cb g hgh⟩

/-- Witness for C8 at concrete inputs. -/
theorem C8_event_channel_basics_witness :
    (5, EmitArg.loadingArg true) ∈
      EventEmitter.emit (EventEmitter.subscribe [("x", [7])] "x" 5) "x"
        (EmitArg.loadingArg true) ∧
    EventEmitter.emit (EventEmitter.clear [("x", [7])] none) "x"
      (EmitArg.loadingArg true) = [] ∧
    (7 ∈ EventEmitter.getHandlers (EventEmitter.unsubscribe [("x", [7])] "x" 5) "x" ↔
      7 ∈ EventEmitter.getHandlers [("x", [7])] "x") :=
  C8_event_channel_basics [("x", [7])] "x" "x" 5 7 (EmitArg.loadingArg true)
    (EmitArg.loadingArg true) (by decide)

/-- Claim C9: the request interceptor reads the token store at request time;
with a stored non-empty token the outgoing request carries an
Authorization header equal to the Bearer form of that token, and with no
stored token the interceptor leaves the request configuration unchanged,
an empty stored string counting as no token under the truthiness guard of
the source. -/
theorem C9_interceptor (t : String) (config : RequestConfig) (ht : t ≠ "") :
    assocLookup (interceptRequest (some t) config).headers "Authorization" =
      some ("Bearer " ++ t) ∧
    interceptRequest none config = config ∧
    interceptRequest (some "") config = config :=
  ⟨by simp [interceptRequest, strParam, ht, assocLookup_set_self], rfl, rfl⟩

/-- Witness for C9 at a concrete token and request configuration. -/
theorem C9_interceptor_witness :
    assocLookup
        (interceptRequest (some "tok") { headers := [] }).headers "Authorization" =
      some ("Bearer " ++ "tok") ∧
    interceptRequest none { headers := [] } = { headers := [] } ∧
    interceptRequest (some "") { headers := [] } = { headers := [] } :=
  C9_interceptor "tok" { headers := [] } (by decide)

/-- Claim C10: the unsubscribe function returned by a subscription removes
every registration on its topic that is reference-equal to the handler
(so a doubly subscribed handler disappears entirely), running it a second
time changes nothing, and registrations on every other topic are
untouched. -/
theorem C10_unsubscribe_semantics (em : Emitter) (t t2 : String) (cb : Nat)
    (hne : t2 ≠ t) :
    cb ∉ EventEmitter.getHandlers (EventEmitter.unsubscribe em t cb) t ∧
    EventEmitter.unsubscribe (EventEmitter.unsubscribe em t cb) t cb =
      EventEmitter.unsubscribe em t cb ∧
    EventEmitter.getHandlers (EventEmitter.unsubscribe em t cb) t2 =
      EventEmitter.getHandlers em t2 :=
  ⟨EventEmitter.not_mem_getHandlers_unsubscribe em t cb,
   EventEmitter.unsubscribe_unsubscribe em t cb,
   EventEmitter.getHandlers_unsubscribe_ne em t t2 cb hne⟩

/-- Witness for C10 at a concrete input where the handler is subscribed
twice to the same topic. -/
theorem C10_unsubscribe_semantics_witness :
    5 ∉ EventEmitter.getHandlers
        (EventEmitter.unsubscribe
          (EventEmitter.subscribe (EventEmitter.subscribe [] "x" 5) "x" 5) "x" 5) "x" ∧
    EventEmitter.unsubscribe
        (EventEmitter.unsubscribe
          (EventEmitter.subscribe (EventEmitter.subscribe [] "x" 5) "x" 5) "x" 5) "x" 5 =
      EventEmitter.unsubscribe
        (EventEmitter.subscribe (EventEmitter.subscribe [] "x" 5) "x" 5) "x" 5 ∧
    EventEmitter.getHandlers
        (EventEmitter.unsubscribe
          (EventEmitter.subscribe (EventEmitter.subscribe [] "x" 5) "x" 5) "x" 5) "y" =
      EventEmitter.getHandlers
        (EventEmitter.subscribe (EventEmitter.subscribe [] "x" 5) "x" 5) "y" :=
  C10_unsubscribe_semantics
    (EventEmitter.subscribe (EventEmitter.subscribe [] "x" 5) "x" 5) "x" "y" 5
    (by decide)

/-- Claim C1 is false on the code: when the backend logout call fails, the
catch block of logout only records an error, and the token removal and
user clearing that follow the awaited call inside the try block are
skipped, so the client still holds the stored token and the user.  Shown
at a concrete authenticated world with a failing backend. -/
theorem C1_counterexample :
    (VanillaAuthClient.logout backendAllFail wLoggedIn).user = some u0 ∧
    (VanillaAuthClient.logout backendAllFail wLoggedIn).storedToken = some "tok" :=
  ⟨rfl, rfl⟩

/-- Claim C1 as amended: in both adapters, when the backend logout call
succeeds, logout clears the user and the stored token; when it fails, the
error is recorded but the stored token and the user are left unchanged;
isLoading ends false either way. -/
theorem C1_amended (b : Backend) (w : VWorld) (r : RWorld) (m : String)
    (hw : w.apiClientInit = true) (hr : r.apiClientInit = true) :
    (b.logoutResp = Except.ok () →
      (VanillaAuthClient.logout b w).user = none ∧
      (VanillaAuthClient.logout b w).storedToken = none ∧
      (VanillaAuthClient.logout b w).isLoading = false) ∧
    (b.logoutResp = Except.error m →
      (VanillaAuthClient.logout b w).user = w.user ∧
      (VanillaAuthClient.logout b w).storedToken = w.storedToken ∧
      (VanillaAuthClient.logout b w).error = some "Logout failed. Please try again." ∧
      (VanillaAuthClient.logout b w).isLoading = false) ∧
    (b.logoutResp = Except.ok () →
      (AuthProvider.logout b r).user = none ∧
      (AuthProvider.logout b r).storedToken = none ∧
      (AuthProvider.logout b r).isLoading = false) ∧
    (b.logoutResp = Except.error m →
      (AuthProvider.logout b r).user = r.user ∧
      (AuthProvider.logout b r).storedToken = r.storedToken ∧
      (AuthProvider.logout b r).error = some "Logout failed. Please try again." ∧
      (AuthProvider.logout b r).isLoading = false) := by
  refine ⟨fun hb => ?_, fun hb => ?_, fun hb => ?_, fun hb => ?_⟩ <;>
    simp [VanillaAuthClient.logout, AuthProvider.logout, VanillaAuthClient.setLoading,
      VanillaAuthClient.setError, VanillaAuthClient.setUser, VanillaAuthClient.removeItem,
      AuthProvider.removeItem, hw, hr, hb]

/-- Witness for C1 as amended, at concrete worlds with a succeeding and a
failing backend. -/
theorem C1_amended_witness :
    (VanillaAuthClient.logout backendAllOk wLoggedIn).user = none ∧
    (AuthProvider.logout backendAllFail rLoggedIn).error =
      some "Logout failed. Please try again." := by
  have h1 := C1_amended backendAllOk wLoggedIn rLoggedIn "HTTP 500" rfl rfl
  have h2 := C1_amended backendAllFail wLoggedIn rLoggedIn "HTTP 500" rfl rfl
  exact ⟨(h1.1 rfl).1, ((h2.2.2.2) rfl).2.2.1⟩

/-- Claim C2 is false on the code: in the vanilla client the URL rewrite
sits inside the try block after the awaited verification, so when
verification fails initialization ends with the token parameter still in
the URL.  Shown at a concrete URL carrying a token with a failing
backend. -/
theorem C2_counterexample :
    (VanillaAuthClient.init backendAllFail (startVWorld none urlWithToken)).url.tokenParam =
      some "T" :=
  rfl

/-- Claim C2 as amended: for a URL carrying a non-empty token parameter T,
initialization stores T and calls verification exactly once in both the
success and the failure case, and the final URL has no token parameter on
success in both adapters and on failure in the React provider; the
vanilla client leaves the URL unchanged when verification fails, so the
token parameter then remains. -/
theorem C2_amended (b : Backend) (url : Url) (st : Option String) (T : String)
    (u : UserData) (m : String) (cfg : AuthProviderProps)
    (hT : url.tokenParam = some T) (hne : T ≠ "") :
    (b.verifyResp = Except.ok u →
      (VanillaAuthClient.init b (startVWorld st url)).calls = [ApiCall.verifyCall] ∧
      (VanillaAuthClient.init b (startVWorld st url)).storedToken = some T ∧
      (VanillaAuthClient.init b (startVWorld st url)).url.tokenParam = none) ∧
    (b.verifyResp = Except.error m →
      (VanillaAuthClient.init b (startVWorld st url)).calls = [ApiCall.verifyCall] ∧
      some T ∈ (VanillaAuthClient.init b (startVWorld st url)).storeWrites ∧
      (VanillaAuthClient.init b (startVWorld st url)).storedToken = none ∧
      (VanillaAuthClient.init b (startVWorld st url)).url = url) ∧
    (b.verifyResp = Except.ok u →
      (AuthProvider.init cfg b (startRWorld st url)).calls = [ApiCall.verifyCall] ∧
      (AuthProvider.init cfg b (startRWorld st url)).storedToken = some T ∧
      (AuthProvider.init cfg b (startRWorld st url)).url.tokenParam = none) ∧
    (b.verifyResp = Except.error m →
      (AuthProvider.init cfg b (startRWorld st url)).calls = [ApiCall.verifyCall] ∧
      some T ∈ (AuthProvider.init cfg b (startRWorld st url)).storeWrites ∧
      (AuthProvider.init cfg b (startRWorld st url)).storedToken = none ∧
      (AuthProvider.init cfg b (startRWorld st url)).url.tokenParam = none) := by
  refine ⟨fun hb => ?_, fun hb => ?_, fun hb => ?_, fun hb => ?_⟩ <;>
    simp [VanillaAuthClient.init, AuthProvider.init, VanillaAuthClient.handleDirectToken,
      AuthProvider.handleToken, VanillaAuthClient.setLoading, VanillaAuthClient.setError,
      VanillaAuthClient.setUser, VanillaAuthClient.setItem, VanillaAuthClient.removeItem,
      AuthProvider.setItem, AuthProvider.removeItem, startVWorld, startRWorld,
      replaceStateUrl, strParam, hT, hne, hb]

/-- Witness for C2 as amended, at a concrete URL carrying token T with a
succeeding and a failing backend. -/
theorem C2_amended_witness :
    (VanillaAuthClient.init backendAllOk (startVWorld none urlWithToken)).storedToken =
      some "T" ∧
    (AuthProvider.init {} backendAllFail (startRWorld none urlWithToken)).url.tokenParam =
      none := by
  have h1 := C2_amended backendAllOk urlWithToken none "T" u0 "HTTP 401" {} rfl (by decide)
  have h2 := C2_amended backendAllFail urlWithToken none "T" u0 "HTTP 401" {} rfl (by decide)
  exact ⟨(h1.1 rfl).2.1, ((h2.2.2.2) rfl).2.2.2⟩

/-- Claim C3 is false on the code: onError registers the callback on the
error event without the immediate invocation that onAuthStateChanged and
onLoadingStateChanged perform, and setError only emits for a truthy
error, so a transition clearing the error to null invokes no callback.
Shown at a concrete world whose current error is non-null. -/
theorem C3_counterexample :
    (VanillaAuthClient.onError wWithError 7).invocations = [] ∧
    (VanillaAuthClient.setError (VanillaAuthClient.onError wWithError 7) none).invocations =
      [] :=
  ⟨rfl, rfl⟩

/-- Claim C3 as amended: onAuthStateChanged and onLoadingStateChanged each
invoke the supplied callback exactly once with the current state
immediately at subscription time and again on every subsequent transition
of that piece of state; onError performs no immediate invocation and its
callback is invoked only on transitions to a non-empty error, a
transition clearing the error to null invoking nothing; destroy releases
all Event Channel subscriptions, so a callback registered before destroy
is not invoked by any later transition. -/
theorem C3_amended (w : VWorld) (cb : Nat) (u : Option UserData) (lb : Bool)
    (e : String) (he : e ≠ "") :
    (VanillaAuthClient.onAuthStateChanged w cb).invocations =
      w.invocations ++ [(cb, EmitArg.userArg w.user)] ∧
    (cb, EmitArg.userArg u) ∈
      (VanillaAuthClient.setUser (VanillaAuthClient.onAuthStateChanged w cb) u).invocations ∧
    (VanillaAuthClient.onLoadingStateChanged w cb).invocations =
      w.invocations ++ [(cb, EmitArg.loadingArg w.isLoading)] ∧
    (cb, EmitArg.loadingArg lb) ∈
      (VanillaAuthClient.setLoading
        (VanillaAuthClient.onLoadingStateChanged w cb) lb).invocations ∧
    (VanillaAuthClient.onError w cb).invocations = w.invocations ∧
    (cb, EmitArg.errorArg e) ∈
      (VanillaAuthClient.setError (VanillaAuthClient.onError w cb) (some e)).invocations ∧
    (VanillaAuthClient.setError (VanillaAuthClient.onError w cb) none).invocations =
      (VanillaAuthClient.onError w cb).invocations ∧
    (VanillaAuthClient.setUser (VanillaAuthClient.destroy w) u).invocations =
      w.invocations ∧
    (VanillaAuthClient.setLoading (VanillaAuthClient.destroy w) lb).invocations =
      w.invocations ∧
    (VanillaAuthClient.setError (VanillaAuthClient.destroy w) (some e)).invocations =
      w.invocations := by
  refine ⟨rfl, ?_, rfl, ?_, rfl, ?_, rfl, ?_, ?_, ?_⟩
  · exact List.mem_append_right _ (EventEmitter.mem_emit_subscribe _ _ _ _)
  · exact List.mem_append_right _ (EventEmitter.mem_emit_subscribe _ _ _ _)
  · show (cb, EmitArg.errorArg e) ∈
      (if e = "" then _ else _ : VWorld).invocations
    rw [if_neg he]
    exact List.mem_append_right _ (EventEmitter.mem_emit_subscribe _ _ _ _)
  · simp [VanillaAuthClient.setUser, VanillaAuthClient.destroy,
      EventEmitter.emit_clear_none]
  · simp [VanillaAuthClient.setLoading, VanillaAuthClient.destroy,
      EventEmitter.emit_clear_none]
  · simp [VanillaAuthClient.setError, VanillaAuthClient.destroy,
      EventEmitter.emit_clear_none, he]

/-- Witness for C3 as amended, at a concrete world and callback. -/
theorem C3_amended_witness :
    (VanillaAuthClient.onError (startVWorld none urlPlain) 3).invocations =
      (startVWorld none urlPlain).invocations ∧
    ((3 : Nat), EmitArg.errorArg "x") ∈
      (VanillaAuthClient.setError
        (VanillaAuthClient.onError (startVWorld none urlPlain) 3) (some "x")).invocations := by
  have h := C3_amended (startVWorld none urlPlain) 3 (some u0) true "x" (by decide)
  exact ⟨h.2.2.2.2.1, h.2.2.2.2.2.1⟩

/-- Claim C5 is false on the code: the vanilla client has no configured
redirect paths; on a failed code exchange its catch block performs no URL
rewrite at all, so initialization ends with the code parameter still in
the URL instead of the URL being rewritten to an unauthorized-redirect
path.  Shown at a concrete URL carrying code and state with a failing
backend. -/
theorem C5_counterexample :
    (VanillaAuthClient.init backendAllFail (startVWorld none urlWithCode)).url.codeParam =
      some "C" :=
  rfl

/-- Claim C5 as amended: for a URL carrying non-empty code C and state S and
no token parameter, initialization calls the callback exchange exactly
once with C and S in both adapters.  In the React provider, success
stores the returned token, sets the user and rewrites the URL to the
configured login-redirect path, and failure clears the token, sets the
error and rewrites the URL to the configured unauthorized-redirect path.
The vanilla client on success stores the token, sets the user and strips
the query string from the current pathname, and on failure clears the
token and sets the error but leaves the URL unchanged. -/
theorem C5_amended (b : Backend) (url : Url) (st : Option String) (C S tok : String)
    (u : UserData) (m : String) (cfg : AuthProviderProps)
    (ht : url.tokenParam = none) (hC : url.codeParam = some C) (hCne : C ≠ "")
    (hS : url.stateParam = some S) (hSne : S ≠ "") :
    (b.callbackResp = Except.ok (tok, u) →
      (VanillaAuthClient.init b (startVWorld st url)).calls =
        [ApiCall.callbackCall C (some S)] ∧
      (VanillaAuthClient.init b (startVWorld st url)).storedToken = some tok ∧
      (VanillaAuthClient.init b (startVWorld st url)).user = some u ∧
      (VanillaAuthClient.init b (startVWorld st url)).url = replaceStateUrl url url.path) ∧
    (b.callbackResp = Except.error m →
      (VanillaAuthClient.init b (startVWorld st url)).calls =
        [ApiCall.callbackCall C (some S)] ∧
      (VanillaAuthClient.init b (startVWorld st url)).storedToken = none ∧
      (VanillaAuthClient.init b (startVWorld st url)).error =
        some "Authentication failed. Please try again." ∧
      (VanillaAuthClient.init b (startVWorld st url)).url = url) ∧
    (b.callbackResp = Except.ok (tok, u) →
      (AuthProvider.init cfg b (startRWorld st url)).calls =
        [ApiCall.callbackCall C (some S)] ∧
      (AuthProvider.init cfg b (startRWorld st url)).storedToken = some tok ∧
      (AuthProvider.init cfg b (startRWorld st url)).user = some u ∧
      (AuthProvider.init cfg b (startRWorld st url)).url =
        replaceStateUrl url cfg.loginRedirectPath) ∧
    (b.callbackResp = Except.error m →
      (AuthProvider.init cfg b (startRWorld st url)).calls =
        [ApiCall.callbackCall C (some S)] ∧
      (AuthProvider.init cfg b (startRWorld st url)).storedToken = none ∧
      (AuthProvider.init cfg b (startRWorld st url)).error =
        some "Authentication failed. Please try again." ∧
      (AuthProvider.init cfg b (startRWorld st url)).url =
        replaceStateUrl url cfg.unauthorizedRedirectPath) := by
  refine ⟨fun hb => ?_, fun hb => ?_, fun hb => ?_, fun hb => ?_⟩ <;>
    simp [VanillaAuthClient.init, AuthProvider.init, VanillaAuthClient.handleCallback,
      AuthProvider.handleCallback, VanillaAuthClient.setLoading, VanillaAuthClient.setError,
      VanillaAuthClient.setUser, VanillaAuthClient.setItem, VanillaAuthClient.removeItem,
      AuthProvider.setItem, AuthProvider.removeItem, startVWorld, startRWorld,
      replaceStateUrl, strParam, ht, hC, hCne, hS, hSne, hb]

/-- Witness for C5 as amended, at a concrete URL carrying code and state
with a succeeding and a failing backend. -/
theorem C5_amended_witness :
    (VanillaAuthClient.init backendAllOk (startVWorld none urlWithCode)).calls =
      [ApiCall.callbackCall "C" (some "S")] ∧
    (AuthProvider.init {} backendAllFail (startRWorld none urlWithCode)).url =
      replaceStateUrl urlWithCode ({} : AuthProviderProps).unauthorizedRedirectPath := by
  have h1 := C5_amended backendAllOk urlWithCode none "C" "S" "tok1" u0 "HTTP 401" {}
    rfl rfl (by decide) rfl (by decide)
  have h2 := C5_amended backendAllFail urlWithCode none "C" "S" "tok1" u0 "HTTP 401" {}
    rfl rfl (by decide) rfl (by decide)
  exact ⟨(h1.1 rfl).1, ((h2.2.2.2) rfl).2.2.2⟩

/-- Claim C6: initializing with no callback parameters in the URL and a
stored token that the backend rejects settles, in both adapters, to a
null user, isLoading false and a non-null error, with the token store
empty at the end of initialization. -/
theorem C6_stale_token_settles (b : Backend) (url : Url) (t m : String)
    (cfg : AuthProviderProps) (ht : url.tokenParam = none)
    (hc : url.codeParam = none) (htne : t ≠ "")
    (hb : b.verifyResp = Except.error m) :
    (VanillaAuthClient.init b (startVWorld (some t) url)).user = none ∧
    (VanillaAuthClient.init b (startVWorld (some t) url)).isLoading = false ∧
    (VanillaAuthClient.init b (startVWorld (some t) url)).error =
      some "Authentication failed. Please log in again." ∧
    (VanillaAuthClient.init b (startVWorld (some t) url)).storedToken = none ∧
    (AuthProvider.init cfg b (startRWorld (some t) url)).user = none ∧
    (AuthProvider.init cfg b (startRWorld (some t) url)).isLoading = false ∧
    (AuthProvider.init cfg b (startRWorld (some t) url)).error =
      some "Authentication failed. Please log in again." ∧
    (AuthProvider.init cfg b (startRWorld (some t) url)).storedToken = none := by
  simp [VanillaAuthClient.init, AuthProvider.init, VanillaAuthClient.checkExistingAuth,
    AuthProvider.checkAuth, VanillaAuthClient.setLoading, VanillaAuthClient.setError,
    VanillaAuthClient.setUser, VanillaAuthClient.removeItem, AuthProvider.removeItem,
    startVWorld, startRWorld, strParam, ht, hc, htne, hb]

/-- Witness for C6 at a concrete stale token and a backend answering
HTTP 401 on verification. -/
theorem C6_stale_token_settles_witness :
    (VanillaAuthClient.init backendAllFail (startVWorld (some "stale") urlPlain)).user =
      none ∧
    (AuthProvider.init {} backendAllFail (startRWorld (some "stale") urlPlain)).storedToken =
      none := by
  have h := C6_stale_token_settles backendAllFail urlPlain "stale" "HTTP 401" {}
    rfl rfl (by decide) rfl
  exact ⟨h.1, h.2.2.2.2.2.2.2⟩

/-- Claim C7: in every operation that issues a verification or exchange
call, the failure handler removes the stored token before the operation
completes, so after a rejected verification or exchange the token store
is empty; shown for the three vanilla branches and the three React
branches. -/
theorem C7_failure_clears_token (b : Backend) (w : VWorld) (r : RWorld)
    (cfg : AuthProviderProps) (tok C : String) (S : Option String) (t m : String)
    (hw : w.apiClientInit = true) (hst : w.storedToken = some t)
    (hrst : r.storedToken = some t) (htne : t ≠ "") :
    (b.verifyResp = Except.error m →
      (VanillaAuthClient.handleDirectToken b w tok).storedToken = none) ∧
    (b.callbackResp = Except.error m →
      (VanillaAuthClient.handleCallback b w C S).storedToken = none) ∧
    (b.verifyResp = Except.error m →
      (VanillaAuthClient.checkExistingAuth b w).storedToken = none) ∧
    (b.verifyResp = Except.error m →
      (AuthProvider.handleToken cfg b r tok).storedToken = none) ∧
    (b.callbackResp = Except.error m →
      (AuthProvider.handleCallback cfg b r C S).storedToken = none) ∧
    (b.verifyResp = Except.error m →
      (AuthProvider.checkAuth b r).storedToken = none) := by
  refine ⟨fun hb => ?_, fun hb => ?_, fun hb => ?_, fun hb => ?_, fun hb => ?_,
    fun hb => ?_⟩ <;>
    simp [VanillaAuthClient.handleDirectToken, VanillaAuthClient.handleCallback,
      VanillaAuthClient.checkExistingAuth, AuthProvider.handleToken,
      AuthProvider.handleCallback, AuthProvider.checkAuth, VanillaAuthClient.setLoading,
      VanillaAuthClient.setError, VanillaAuthClient.setUser, VanillaAuthClient.setItem,
      VanillaAuthClient.removeItem, AuthProvider.setItem, AuthProvider.removeItem,
      replaceStateUrl, strParam, hw, hst, hrst, htne, hb]

/-- Witness for C7 at concrete worlds holding a stored token and a backend
rejecting every call. -/
theorem C7_failure_clears_token_witness :
    (VanillaAuthClient.handleDirectToken backendAllFail wLoggedIn "T").storedToken = none ∧
    (AuthProvider.checkAuth backendAllFail rLoggedIn).storedToken = none := by
  have h := C7_failure_clears_token backendAllFail wLoggedIn rLoggedIn {} "T" "C"
    (some "S") "tok" "HTTP 401" rfl rfl rfl (by decide)
  exact ⟨h.1 rfl, h.2.2.2.2.2 rfl⟩

end AuthGateway
